import Mathlib

/-!
Shallow embedding of `src/path_trace_integrator.cpp` (class `PathTraceIntegrator`
of the RayTracing repository).

The integrator is a host-side scheduler: every method is a straight-line
sequence of OpenCL calls (`SetArgument`, `ExecuteKernel`, GL-interop
acquire/finish/release, and one call into the acceleration structure).  We
embed each method as the list of those calls, in source order, over an
explicit event type.  Device-side effects of the kernels (whose `.cl`
sources are not part of the repository) are modelled separately, from the
spec, by a small state interpreter over the event traces.
-/

namespace PathTrace

/- Kernel argument slot numbers of the ray-generation kernel, from the
`args::Raygen` enum of the source (values 0..12 in declaration order). -/
namespace Raygen

def kWidth : Nat := 0

def kHeight : Nat := 1

def kCameraPos : Nat := 2

def kCameraFront : Nat := 3

def kCameraUp : Nat := 4

def kFrameCount : Nat := 5

def kFrameSeed : Nat := 6

def kAperture : Nat := 7

def kFocusDistance : Nat := 8

def kRayBuffer : Nat := 9

def kRayCounterBuffer : Nat := 10

def kPixelIndicesBuffer : Nat := 11

def kThroughputsBuffer : Nat := 12

end Raygen

/- Slot numbers of the miss-shading kernel, from the `args::Miss` enum. -/
namespace Miss

def kRayBuffer : Nat := 0

def kRayCounterBuffer : Nat := 1

def kHitsBuffer : Nat := 2

def kPixelIndicesBuffer : Nat := 3

def kThroughputsBuffer : Nat := 4

def kIblTextureBuffer : Nat := 5

def kRadianceBuffer : Nat := 6

end Miss

/- Slot numbers of the hit-surface kernel, from the `args::HitSurface` enum. -/
namespace HitSurface

def kIncomingRayBuffer : Nat := 0

def kIncomingRayCounterBuffer : Nat := 1

def kIncomingPixelIndicesBuffer : Nat := 2

def kHitsBuffer : Nat := 3

def kTrianglesBuffer : Nat := 4

def kMaterialsBuffer : Nat := 5

def kBounce : Nat := 6

def kWidth : Nat := 7

def kHeight : Nat := 8

def kSampleCounterBuffer : Nat := 9

def kSobolBuffer : Nat := 10

def kScramblingTileBuffer : Nat := 11

def kRankingTileBuffer : Nat := 12

def kThroughputsBuffer : Nat := 13

def kOutgoingRayBuffer : Nat := 14

def kOutgoingRayCounterBuffer : Nat := 15

def kOutgoingPixelIndicesBuffer : Nat := 16

def kRadianceBuffer : Nat := 17

end HitSurface

/- Slot numbers of the resolve kernel, from the `args::Resolve` enum. -/
namespace Resolve

def kWidth : Nat := 0

def kHeight : Nat := 1

def kRadianceBuffer : Nat := 2

def kSampleCounterBuffer : Nat := 3

def kResolvedTexture : Nat := 4

end Resolve

/-- The seven kernels created in the constructor (`reset_kernel_` ..
`resolve_kernel_`). -/
inductive KernelId where
  | reset
  | raygen
  | miss
  | hitSurface
  | clearCounter
  | incrementCounter
  | resolve
  deriving DecidableEq

/-- Device buffers owned by the integrator.  `rays i`, `pixelIndices i` and
`rayCounter i` (i = 0, 1) are the two ping-pong triples
(`rays_buffer_[i]`, `pixel_indices_buffer_[i]`, `ray_counter_buffer_[i]`). -/
inductive BufId where
  | radiance
  | rays (i : Nat)
  | pixelIndices (i : Nat)
  | rayCounter (i : Nat)
  | hits
  | throughputs
  | sampleCounter
  | sobol
  | scramblingTile
  | rankingTile
  deriving DecidableEq

/-- Camera vectors are triples of reals; the C++ `float3` componentwise
fields, modelled over ℝ. -/
structure Vec3 where
  x : ℝ
  y : ℝ
  z : ℝ

/-- Modelled from the spec: `float3` dot product (`vectors.hpp` is not under
`src/`); standard Euclidean dot product. -/
def dot (a b : Vec3) : ℝ :=
  a.x * b.x + a.y * b.y + a.z * b.z

/-- Modelled from the spec: `float3` cross product (`Cross` of `vectors.hpp`
is not under `src/`); standard right-handed cross product, as required by
the spec's "right-from-front×up, up-from-right×front" basis derivation. -/
def cross (a b : Vec3) : Vec3 :=
  ⟨a.y * b.z - a.z * b.y, a.z * b.x - a.x * b.z, a.x * b.y - a.y * b.x⟩

/-- Scalar multiplication of a `Vec3`. -/
def smul (c : ℝ) (v : Vec3) : Vec3 :=
  ⟨c * v.x, c * v.y, c * v.z⟩

/-- Modelled from the spec: `float3::Normalize` (`vectors.hpp` is not under
`src/`): the vector scaled to unit Euclidean length, i.e. divided by
`sqrt(dot v v)`. -/
noncomputable def normalize (v : Vec3) : Vec3 :=
  smul (Real.sqrt (dot v v))⁻¹ v

/-- A value passed to `CLKernel::SetArgument`: one of the integrator's own
buffers, a raw external `cl_mem` handle (scene buffers, indexed by an opaque
id), a 32-bit unsigned integer, a float, a `float3`, or the GL-interop
output image. -/
inductive Arg where
  | buf (b : BufId)
  | mem (handle : Nat)
  | u32 (n : Nat)
  | f32 (x : ℝ)
  | vec3 (v : Vec3)
  | img

/-- One host-side call issued by the integrator: a kernel argument binding, a
kernel dispatch over a number of work-items, the acceleration-structure
intersection call (with the ray buffer, ray counter, max ray count and hit
buffer it is passed), or a GL-interop acquire / blocking finish / release. -/
inductive Event where
  | setKernelArg (k : KernelId) (slot : Nat) (a : Arg)
  | execKernel (k : KernelId) (workItems : Nat)
  | intersect (rayBuf ctrBuf : BufId) (maxRays : Nat) (hitBuf : BufId)
  | acquireGL
  | finish
  | releaseGL

/-- Trace of `PathTraceIntegrator::Reset()`: bind the sample counter to the
clear-counter kernel and run it over 1 work-item, then run the
radiance-reset kernel over `width * height` work-items. -/
def ResetTrace (w h : Nat) : List Event :=
  [ .setKernelArg .clearCounter 0 (.buf .sampleCounter),
    .execKernel .clearCounter 1,
    .execKernel .reset (w * h) ]

/-- Trace of `PathTraceIntegrator::AdvanceSampleCount()`: bind the sample
counter to the increment-counter kernel and run it over 1 work-item. -/
def AdvanceSampleCount : List Event :=
  [ .setKernelArg .incrementCounter 0 (.buf .sampleCounter),
    .execKernel .incrementCounter 1 ]

/-- Trace of `PathTraceIntegrator::GenerateRays()`: dispatch the raygen
kernel over `num_rays = width * height` work-items. -/
def GenerateRays (w h : Nat) : List Event :=
  [ .execKernel .raygen (w * h) ]

/-- Trace of `PathTraceIntegrator::IntersectRays(bounce)`: one call into the
acceleration structure with `rays_buffer_[bounce & 1]`,
`ray_counter_buffer_[bounce & 1]`, `max_num_rays = width * height` and
`hits_buffer_`. -/
def IntersectRays (w h bounce : Nat) : List Event :=
  let maxNumRays := w * h
  let incomingIdx := bounce &&& 1
  [ .intersect (.rays incomingIdx) (.rayCounter incomingIdx) maxNumRays .hits ]

/-- Trace of `PathTraceIntegrator::ShadeMissedRays(bounce)`: bind the
incoming ray / pixel-index / counter triple of parity `bounce & 1` into the
miss kernel, then dispatch it over `max_num_rays = width * height`. -/
def ShadeMissedRays (w h bounce : Nat) : List Event :=
  let maxNumRays := w * h
  let incomingIdx := bounce &&& 1
  [ .setKernelArg .miss Miss.kRayBuffer (.buf (.rays incomingIdx)),
    .setKernelArg .miss Miss.kPixelIndicesBuffer (.buf (.pixelIndices incomingIdx)),
    .setKernelArg .miss Miss.kRayCounterBuffer (.buf (.rayCounter incomingIdx)),
    .execKernel .miss maxNumRays ]

/-- Trace of `PathTraceIntegrator::ShadeSurfaceHits(bounce)`: bind the
incoming triple of parity `bounce & 1` and the outgoing triple of parity
`(bounce + 1) & 1` into the hit-surface kernel, bind the bounce index, then
dispatch over `max_num_rays = width * height`. -/
def ShadeSurfaceHits (w h bounce : Nat) : List Event :=
  let maxNumRays := w * h
  let incomingIdx := bounce &&& 1
  let outgoingIdx := (bounce + 1) &&& 1
  [ .setKernelArg .hitSurface HitSurface.kIncomingRayBuffer (.buf (.rays incomingIdx)),
    .setKernelArg .hitSurface HitSurface.kIncomingPixelIndicesBuffer
      (.buf (.pixelIndices incomingIdx)),
    .setKernelArg .hitSurface HitSurface.kIncomingRayCounterBuffer
      (.buf (.rayCounter incomingIdx)),
    .setKernelArg .hitSurface HitSurface.kOutgoingRayBuffer (.buf (.rays outgoingIdx)),
    .setKernelArg .hitSurface HitSurface.kOutgoingPixelIndicesBuffer
      (.buf (.pixelIndices outgoingIdx)),
    .setKernelArg .hitSurface HitSurface.kOutgoingRayCounterBuffer
      (.buf (.rayCounter outgoingIdx)),
    .setKernelArg .hitSurface HitSurface.kBounce (.u32 bounce),
    .execKernel .hitSurface maxNumRays ]

/-- Trace of `PathTraceIntegrator::ClearOutgoingRayCounter(bounce)`: bind
`ray_counter_buffer_[(bounce + 1) & 1]` to the clear-counter kernel and run
it over 1 work-item. -/
def ClearOutgoingRayCounter (bounce : Nat) : List Event :=
  let outgoingIdx := (bounce + 1) &&& 1
  [ .setKernelArg .clearCounter 0 (.buf (.rayCounter outgoingIdx)),
    .execKernel .clearCounter 1 ]

/-- Trace of `PathTraceIntegrator::ResolveRadiance()`: acquire the GL
interop image, dispatch the resolve kernel over `width * height`
work-items, block on `Finish`, release the image. -/
def ResolveRadiance (w h : Nat) : List Event :=
  [ .acquireGL,
    .execKernel .resolve (w * h),
    .finish,
    .releaseGL ]

/-- Body of one iteration of the bounce loop in
`PathTraceIntegrator::Integrate()`: intersect, miss-shade, clear the
outgoing counter, hit-shade. -/
def bounceBody (w h bounce : Nat) : List Event :=
  IntersectRays w h bounce ++ ShadeMissedRays w h bounce ++
    ClearOutgoingRayCounter bounce ++ ShadeSurfaceHits w h bounce

/-- The `for (bounce = b; bounce < b + remaining; ++bounce)` loop of
`Integrate()`, as structural recursion on the number of remaining
iterations. -/
def bounceLoop (w h bounce : Nat) : Nat → List Event
  | 0 => []
  | remaining + 1 => bounceBody w h bounce ++ bounceLoop w h (bounce + 1) remaining

/-- Trace of `PathTraceIntegrator::Integrate()`: generate rays, run the
bounce loop from bounce 0 for `max_bounces_` iterations, advance the sample
count, resolve. -/
def Integrate (w h maxBounces : Nat) : List Event :=
  GenerateRays w h ++ bounceLoop w h 0 maxBounces ++
    AdvanceSampleCount ++ ResolveRadiance w h

/-- Camera parameters read by `SetCameraData` through the `Camera`
collaborator (its getters are external to the integrator). -/
structure CameraInput where
  origin : Vec3
  front : Vec3
  up : Vec3
  frameCount : Nat
  aperture : ℝ
  focusDistance : ℝ

/-- Scene buffer handles read by `SetSceneData` through the `Scene`
collaborator: raw `cl_mem` handles, modelled as opaque ids. -/
structure SceneInput where
  triangleBuffer : Nat
  materialBuffer : Nat
  envTexture : Nat

/-- Trace of `PathTraceIntegrator::SetCameraData(camera)`: compute
`right = Cross(front, up).Normalize()` and `up' = Cross(right, front)`,
then bind position, front, the recomputed up, frame count, the freshly
drawn random seed (`rand()`, modelled as the parameter `seed`), aperture
and focus distance into the raygen kernel.  No kernel is dispatched. -/
noncomputable def SetCameraData (c : CameraInput) (seed : Nat) : List Event :=
  let origin := c.origin
  let front := c.front
  let right := normalize (cross front c.up)
  let up := cross right front
  [ .setKernelArg .raygen Raygen.kCameraPos (.vec3 origin),
    .setKernelArg .raygen Raygen.kCameraFront (.vec3 front),
    .setKernelArg .raygen Raygen.kCameraUp (.vec3 up),
    .setKernelArg .raygen Raygen.kFrameCount (.u32 c.frameCount),
    .setKernelArg .raygen Raygen.kFrameSeed (.u32 seed),
    .setKernelArg .raygen Raygen.kAperture (.f32 c.aperture),
    .setKernelArg .raygen Raygen.kFocusDistance (.f32 c.focusDistance) ]

/-- Trace of `PathTraceIntegrator::SetSceneData(scene)`: bind the triangle
and material handles into the hit-surface kernel and the environment
texture into the miss kernel. -/
def SetSceneData (s : SceneInput) : List Event :=
  [ .setKernelArg .hitSurface HitSurface.kTrianglesBuffer (.mem s.triangleBuffer),
    .setKernelArg .hitSurface HitSurface.kMaterialsBuffer (.mem s.materialBuffer),
    .setKernelArg .miss Miss.kIblTextureBuffer (.mem s.envTexture) ]

/-- The `SetArgument` calls of the constructor body (source lines 160–206),
in source order: reset-kernel, raygen-kernel, miss-kernel, hit-surface
kernel and resolve-kernel setup.  The raygen output triple is bound to the
parity-0 buffers here and nowhere else. -/
def ctorSetupArgs (w h : Nat) : List Event :=
  [ .setKernelArg .reset 0 (.u32 w),
    .setKernelArg .reset 1 (.u32 h),
    .setKernelArg .reset 2 (.buf .radiance),
    .setKernelArg .raygen Raygen.kWidth (.u32 w),
    .setKernelArg .raygen Raygen.kHeight (.u32 h),
    .setKernelArg .raygen Raygen.kRayBuffer (.buf (.rays 0)),
    .setKernelArg .raygen Raygen.kRayCounterBuffer (.buf (.rayCounter 0)),
    .setKernelArg .raygen Raygen.kPixelIndicesBuffer (.buf (.pixelIndices 0)),
    .setKernelArg .raygen Raygen.kThroughputsBuffer (.buf .throughputs),
    .setKernelArg .miss Miss.kHitsBuffer (.buf .hits),
    .setKernelArg .miss Miss.kThroughputsBuffer (.buf .throughputs),
    .setKernelArg .miss Miss.kRadianceBuffer (.buf .radiance),
    .setKernelArg .hitSurface HitSurface.kHitsBuffer (.buf .hits),
    .setKernelArg .hitSurface HitSurface.kThroughputsBuffer (.buf .throughputs),
    .setKernelArg .hitSurface HitSurface.kRadianceBuffer (.buf .radiance),
    .setKernelArg .hitSurface HitSurface.kWidth (.u32 w),
    .setKernelArg .hitSurface HitSurface.kHeight (.u32 h),
    .setKernelArg .hitSurface HitSurface.kSampleCounterBuffer (.buf .sampleCounter),
    .setKernelArg .hitSurface HitSurface.kSobolBuffer (.buf .sobol),
    .setKernelArg .hitSurface HitSurface.kScramblingTileBuffer (.buf .scramblingTile),
    .setKernelArg .hitSurface HitSurface.kRankingTileBuffer (.buf .rankingTile),
    .setKernelArg .resolve Resolve.kWidth (.u32 w),
    .setKernelArg .resolve Resolve.kHeight (.u32 h),
    .setKernelArg .resolve Resolve.kSampleCounterBuffer (.buf .sampleCounter),
    .setKernelArg .resolve Resolve.kRadianceBuffer (.buf .radiance),
    .setKernelArg .resolve Resolve.kResolvedTexture .img ]

/-- Full event trace of the constructor after successful resource creation:
the argument setup followed by the `Reset()` call at the end of the body. -/
def ctorTrace (w h : Nat) : List Event :=
  ctorSetupArgs w h ++ ResetTrace w h

/-- A public method invocation on the integrator, after construction. -/
inductive ApiCall where
  | reset
  | setCameraData (c : CameraInput) (seed : Nat)
  | setSceneData (s : SceneInput)
  | advanceSampleCount
  | generateRays
  | intersectRays (bounce : Nat)
  | shadeMissedRays (bounce : Nat)
  | shadeSurfaceHits (bounce : Nat)
  | clearOutgoingRayCounter (bounce : Nat)
  | resolveRadiance
  | integrate (maxBounces : Nat)

/-- Event trace of one public method invocation. -/
noncomputable def callTrace (w h : Nat) : ApiCall → List Event
  | .reset => ResetTrace w h
  | .setCameraData c seed => SetCameraData c seed
  | .setSceneData s => SetSceneData s
  | .advanceSampleCount => AdvanceSampleCount
  | .generateRays => GenerateRays w h
  | .intersectRays b => IntersectRays w h b
  | .shadeMissedRays b => ShadeMissedRays w h b
  | .shadeSurfaceHits b => ShadeSurfaceHits w h b
  | .clearOutgoingRayCounter b => ClearOutgoingRayCounter b
  | .resolveRadiance => ResolveRadiance w h
  | .integrate n => Integrate w h n

/-- Event trace of a sequence of public method invocations. -/
noncomputable def callsTrace (w h : Nat) : List ApiCall → List Event
  | [] => []
  | c :: cs => callTrace w h c ++ callsTrace w h cs

/-! ### Constructor resource creation and its status variable

The constructor creates fourteen resources in a fixed order, passing the
address of one `cl_int status` variable to each creation; `status` is
tested exactly twice (after the throughputs buffer, throwing
`CLException("Failed to create radiance buffer", status)`, and after the
GL-interop image, throwing `CLException("Failed to create output image",
status)`).  We model it by threading the single `status` variable through
the creations, reading each creation's outcome from an input map. -/

/-- The buffer / image resources created by the constructor. -/
inductive Resource where
  | radianceBuffer
  | raysBuffer (i : Nat)
  | pixelIndicesBuffer (i : Nat)
  | rayCounterBuffer (i : Nat)
  | hitsBuffer
  | throughputsBuffer
  | sampleCounterBuffer
  | sobolBuffer
  | scramblingTileBuffer
  | rankingTileBuffer
  | outputImage
  deriving DecidableEq

/-- OpenCL success status code. -/
def CL_SUCCESS : Int := 0

/-- The exception type thrown on a detected creation failure: a message
string and the OpenCL status code, as in `CLException` of the source. -/
structure CLException where
  message : String
  status : Int
  deriving DecidableEq

set_option linter.unusedVariables false in
/-- The resource-creation phase of `PathTraceIntegrator`'s constructor.
`st r` is the status code the OpenCL runtime reports for the creation of
resource `r`.  Each `let status := ...` line mirrors one creation writing
into the single `status` variable of the source; the two `if` tests mirror
the two `status != CL_SUCCESS` checks. -/
def ctorCreateResources (st : Resource → Int) : Except CLException Unit :=
  let status := st .radianceBuffer
  let status := st (.raysBuffer 0)
  let status := st (.pixelIndicesBuffer 0)
  let status := st (.rayCounterBuffer 0)
  let status := st (.raysBuffer 1)
  let status := st (.pixelIndicesBuffer 1)
  let status := st (.rayCounterBuffer 1)
  let status := st .hitsBuffer
  let status := st .throughputsBuffer
  if status ≠ CL_SUCCESS then
    .error ⟨"Failed to create radiance buffer", status⟩
  else
    let status := st .sampleCounterBuffer
    let status := st .sobolBuffer
    let status := st .scramblingTileBuffer
    let status := st .rankingTileBuffer
    let status := st .outputImage
    if status ≠ CL_SUCCESS then
      .error ⟨"Failed to create output image", status⟩
    else
      .ok ()

/-! ### Trace queries -/

/-- Extract the argument a `setKernelArg` event binds to slot `slot` of
kernel `k`, if it is such an event. -/
def argMatch (k : KernelId) (slot : Nat) : Event → Option Arg
  | .setKernelArg q s a => if q = k ∧ s = slot then some a else none
  | _ => none

/-- The argument bound to slot `slot` of kernel `k` at the end of trace
`t`: the value of the last matching `setKernelArg` event, if any. -/
def argOf (t : List Event) (k : KernelId) (slot : Nat) : Option Arg :=
  t.reverse.findSome? (argMatch k slot)

/-- Whether an event is a dispatch of kernel `k`. -/
def isExecOf (k : KernelId) : Event → Bool
  | .execKernel q _ => q = k
  | _ => false

/-- Whether an event is the acceleration-structure intersection call. -/
def isIntersectCall : Event → Bool
  | .intersect .. => true
  | _ => false

/-- Whether an event is the blocking `Finish`. -/
def isFinishCall : Event → Bool
  | .finish => true
  | _ => false

/-- Whether an event is the GL-interop acquire. -/
def isAcquireCall : Event → Bool
  | .acquireGL => true
  | _ => false

/-- Whether an event is the GL-interop release. -/
def isReleaseCall : Event → Bool
  | .releaseGL => true
  | _ => false

/-- Number of dispatches of kernel `k` in a trace. -/
def countExec (k : KernelId) (t : List Event) : Nat :=
  t.countP (isExecOf k)

/-- Number of acceleration-structure intersection calls in a trace. -/
def countIntersect (t : List Event) : Nat :=
  t.countP isIntersectCall

/-! ### Device-state semantics

The kernels' `.cl` sources are not part of the repository; their effect on
the state the claims mention (the two ray counters, the sample counter and
the radiance accumulator) is modelled from the spec.  Data-dependent
effects (the radiance contributions of the shading kernels and the number
of surviving rays a hit-shading dispatch appends) are parameters of the
interpreter, so every theorem below holds for an arbitrary assignment of
those effects. -/

/-- Modelled from the spec: the data-dependent effects of the shading
kernels, which depend on scene content that is out of scope.
`missAdd s i` is the radiance contribution the miss kernel adds at pixel
`i` (additive accumulation only, per the spec), `hitAdd s i` likewise for
the hit-surface kernel, and `hitSurvivors s` is the number of surviving
rays a hit-surface dispatch appends into its outgoing stream. -/
structure KernelOracle where
  missAdd : Nat → ℝ
  hitAdd : Nat → ℝ
  hitSurvivors : Nat

/-- The device state the claims are about: the current kernel argument
bindings, the contents of the single-integer counter buffers, and the
radiance accumulator. -/
structure DeviceState where
  bindings : KernelId → Nat → Option Arg
  counterVal : BufId → Nat
  radiance : Nat → ℝ

/-- Update a binding map at one kernel/slot pair. -/
def setBinding (m : KernelId → Nat → Option Arg) (k : KernelId) (slot : Nat)
    (a : Arg) : KernelId → Nat → Option Arg :=
  fun q s => if q = k ∧ s = slot then some a else m q s

/-- Set the modelled value of a counter buffer. -/
def setCounter (m : BufId → Nat) (b : BufId) (v : Nat) : BufId → Nat :=
  fun q => if q = b then v else m q

/-- Effect of one host call on the device state.  Modelled from the spec
for the kernels whose sources are absent: `clear_counter` zeroes the
counter buffer bound to its slot 0, `increment_counter` adds one to it,
`raygeneration` sets its bound ray counter to the number of work-items
(one generated ray per pixel), `reset_radiance` zeroes the radiance of
every dispatched pixel, `miss` and `hit_surface` add their data-dependent
contributions to radiance, and `hit_surface` additionally sets its bound
outgoing counter to the data-dependent survivor count.  Argument-binding
events update the binding map only; `intersect` writes the hit stream
(untracked), and acquire/finish/release touch no tracked state. -/
def applyEvent (o : KernelOracle) (s : DeviceState) : Event → DeviceState
  | .setKernelArg k slot a => { s with bindings := setBinding s.bindings k slot a }
  | .execKernel .clearCounter _ =>
      match s.bindings .clearCounter 0 with
      | some (.buf b) => { s with counterVal := setCounter s.counterVal b 0 }
      | _ => s
  | .execKernel .incrementCounter _ =>
      match s.bindings .incrementCounter 0 with
      | some (.buf b) =>
          { s with counterVal := setCounter s.counterVal b (s.counterVal b + 1) }
      | _ => s
  | .execKernel .raygen n =>
      match s.bindings .raygen Raygen.kRayCounterBuffer with
      | some (.buf b) => { s with counterVal := setCounter s.counterVal b n }
      | _ => s
  | .execKernel .reset n =>
      { s with radiance := fun i => if i < n then 0 else s.radiance i }
  | .execKernel .miss n =>
      { s with radiance := fun i => if i < n then s.radiance i + o.missAdd i else s.radiance i }
  | .execKernel .hitSurface n =>
      let withRad : DeviceState :=
        { s with radiance := fun i => if i < n then s.radiance i + o.hitAdd i else s.radiance i }
      match s.bindings .hitSurface HitSurface.kOutgoingRayCounterBuffer with
      | some (.buf b) =>
          { withRad with counterVal := setCounter s.counterVal b o.hitSurvivors }
      | _ => withRad
  | .execKernel .resolve _ => s
  | .intersect _ _ _ _ => s
  | .acquireGL => s
  | .finish => s
  | .releaseGL => s

/-- Run a trace from a device state. -/
def run (o : KernelOracle) (s : DeviceState) (t : List Event) : DeviceState :=
  t.foldl (applyEvent o) s

/-! ### Helper lemmas -/

/-- Unfolding one iteration of the bounce loop. -/
lemma bounceLoop_succ (w h b m : Nat) :
    bounceLoop w h b (m + 1) = bounceBody w h b ++ bounceLoop w h (b + 1) m := rfl

/-- The bounce loop from `b` for `n` iterations is the concatenation of the
bodies at `b`, `b + 1`, …, `b + n − 1`. -/
lemma bounceLoop_eq_flatMap (w h : Nat) : ∀ n b,
    bounceLoop w h b n = (List.range n).flatMap (fun i => bounceBody w h (b + i)) := by
  intro n
  induction n with
  | zero => intro b; simp [bounceLoop]
  | succ m ih =>
    intro b
    rw [bounceLoop_succ, ih (b + 1), List.range_succ_eq_map, List.flatMap_cons,
      List.flatMap_map, Nat.add_zero]
    congr 1
    exact List.flatMap_congr fun x _ => by
      rw [show b + Nat.succ x = b + 1 + x from by omega]

/-- Counting events across the bounce loop when each body contributes the
same count. -/
lemma countP_bounceLoop (w h : Nat) (p : Event → Bool) (c : Nat)
    (hbody : ∀ b, List.countP p (bounceBody w h b) = c) :
    ∀ n b, List.countP p (bounceLoop w h b n) = n * c := by
  intro n
  induction n with
  | zero => intro b; simp [bounceLoop]
  | succ m ih =>
    intro b
    rw [bounceLoop_succ, List.countP_append, hbody, ih (b + 1)]
    ring

/-- Device states with equal components are equal. -/
lemma deviceStateExt {a b : DeviceState} (h1 : a.bindings = b.bindings)
    (h2 : a.counterVal = b.counterVal) (h3 : a.radiance = b.radiance) : a = b := by
  cases a
  cases b
  cases h1
  cases h2
  cases h3
  rfl

/-- Re-binding the same argument twice is the same as binding it once. -/
lemma setBinding_idem (m : KernelId → Nat → Option Arg) (k : KernelId) (slot : Nat)
    (a : Arg) : setBinding (setBinding m k slot a) k slot a = setBinding m k slot a := by
  funext q sl
  by_cases hc : q = k ∧ sl = slot
  · simp [setBinding, hc]
  · simp [setBinding, hc]

/-- Setting a counter to the same value twice is the same as setting it
once. -/
lemma setCounter_idem (m : BufId → Nat) (b : BufId) (v : Nat) :
    setCounter (setCounter m b v) b v = setCounter m b v := by
  funext q
  by_cases hc : q = b
  · simp [setCounter, hc]
  · simp [setCounter, hc]

/-- Closed form of the state after running `Reset()`'s trace: the
clear-counter kernel is rebound to the sample counter, the sample counter
is zeroed, and the radiance of every dispatched pixel is zeroed. -/
lemma run_ResetTrace (o : KernelOracle) (s : DeviceState) (w h : Nat) :
    run o s (ResetTrace w h) =
      { bindings := setBinding s.bindings .clearCounter 0 (.buf .sampleCounter),
        counterVal := setCounter s.counterVal .sampleCounter 0,
        radiance := fun i => if i < w * h then 0 else s.radiance i } := by
  simp [run, ResetTrace, applyEvent, setBinding]

end PathTrace

namespace PathTrace

/-- C1: every invocation of `Integrate()` dispatches exactly
`GenerateRays()`, then for each bounce `b = 0 .. maxBounces − 1` in
increasing order `IntersectRays(b)`, `ShadeMissedRays(b)`,
`ClearOutgoingRayCounter(b)`, `ShadeSurfaceHits(b)`, then exactly one
`AdvanceSampleCount()`, then exactly one `ResolveRadiance()`: the event
trace is exactly that concatenation, and the dispatch counts confirm no
step is skipped or repeated. -/
theorem C1_integrate_dispatch_sequence (w h n : Nat) :
    Integrate w h n =
      GenerateRays w h ++
        ((List.range n).flatMap fun b =>
          IntersectRays w h b ++ ShadeMissedRays w h b ++
            ClearOutgoingRayCounter b ++ ShadeSurfaceHits w h b) ++
        AdvanceSampleCount ++ ResolveRadiance w h ∧
    countExec .raygen (Integrate w h n) = 1 ∧
    countExec .incrementCounter (Integrate w h n) = 1 ∧
    countExec .resolve (Integrate w h n) = 1 ∧
    countIntersect (Integrate w h n) = n ∧
    countExec .miss (Integrate w h n) = n ∧
    countExec .clearCounter (Integrate w h n) = n ∧
    countExec .hitSurface (Integrate w h n) = n := by
  have hloop : bounceLoop w h 0 n =
      (List.range n).flatMap fun b =>
        IntersectRays w h b ++ ShadeMissedRays w h b ++
          ClearOutgoingRayCounter b ++ ShadeSurfaceHits w h b := by
    rw [bounceLoop_eq_flatMap]
    exact List.flatMap_congr fun x _ => by simp [bounceBody]
  have hcount : ∀ (p : Event → Bool) (c : Nat),
      (∀ b, List.countP p (bounceBody w h b) = c) →
      List.countP p (Integrate w h n) =
        List.countP p (GenerateRays w h) + n * c +
          List.countP p AdvanceSampleCount + List.countP p (ResolveRadiance w h) := by
    intro p c hc
    unfold Integrate
    rw [List.countP_append, List.countP_append, List.countP_append,
      countP_bounceLoop w h p c hc n 0]
  refine ⟨by unfold Integrate; rw [hloop], ?_, ?_, ?_, ?_, ?_, ?_, ?_⟩
  · rw [countExec, hcount (isExecOf .raygen) 0 fun b => rfl]; rfl
  · rw [countExec, hcount (isExecOf .incrementCounter) 0 fun b => rfl]; rfl
  · rw [countExec, hcount (isExecOf .resolve) 0 fun b => rfl]; rfl
  · rw [countIntersect, hcount isIntersectCall 1 fun b => rfl,
      show List.countP isIntersectCall (GenerateRays w h) = 0 from rfl,
      show List.countP isIntersectCall AdvanceSampleCount = 0 from rfl,
      show List.countP isIntersectCall (ResolveRadiance w h) = 0 from rfl]
    omega
  · rw [countExec, hcount (isExecOf .miss) 1 fun b => rfl,
      show List.countP (isExecOf .miss) (GenerateRays w h) = 0 from rfl,
      show List.countP (isExecOf .miss) AdvanceSampleCount = 0 from rfl,
      show List.countP (isExecOf .miss) (ResolveRadiance w h) = 0 from rfl]
    omega
  · rw [countExec, hcount (isExecOf .clearCounter) 1 fun b => rfl,
      show List.countP (isExecOf .clearCounter) (GenerateRays w h) = 0 from rfl,
      show List.countP (isExecOf .clearCounter) AdvanceSampleCount = 0 from rfl,
      show List.countP (isExecOf .clearCounter) (ResolveRadiance w h) = 0 from rfl]
    omega
  · rw [countExec, hcount (isExecOf .hitSurface) 1 fun b => rfl,
      show List.countP (isExecOf .hitSurface) (GenerateRays w h) = 0 from rfl,
      show List.countP (isExecOf .hitSurface) AdvanceSampleCount = 0 from rfl,
      show List.countP (isExecOf .hitSurface) (ResolveRadiance w h) = 0 from rfl]
    omega

/-- C2: for every bounce `b`, the incoming ray / pixel-index / counter
triple passed to the acceleration structure and bound into the miss and
hit-surface kernels is the one at index `b & 1`; the outgoing triple bound
into the hit-surface kernel and the counter targeted by
`ClearOutgoingRayCounter` are at index `(b + 1) & 1`; and the two indices
are always distinct, so incoming and outgoing never alias. -/
theorem C2_parity_indexing (w h b : Nat) :
    IntersectRays w h b =
      [.intersect (.rays (b &&& 1)) (.rayCounter (b &&& 1)) (w * h) .hits] ∧
    argOf (ShadeMissedRays w h b) .miss Miss.kRayBuffer =
      some (.buf (.rays (b &&& 1))) ∧
    argOf (ShadeMissedRays w h b) .miss Miss.kPixelIndicesBuffer =
      some (.buf (.pixelIndices (b &&& 1))) ∧
    argOf (ShadeMissedRays w h b) .miss Miss.kRayCounterBuffer =
      some (.buf (.rayCounter (b &&& 1))) ∧
    argOf (ShadeSurfaceHits w h b) .hitSurface HitSurface.kIncomingRayBuffer =
      some (.buf (.rays (b &&& 1))) ∧
    argOf (ShadeSurfaceHits w h b) .hitSurface HitSurface.kIncomingPixelIndicesBuffer =
      some (.buf (.pixelIndices (b &&& 1))) ∧
    argOf (ShadeSurfaceHits w h b) .hitSurface HitSurface.kIncomingRayCounterBuffer =
      some (.buf (.rayCounter (b &&& 1))) ∧
    argOf (ShadeSurfaceHits w h b) .hitSurface HitSurface.kOutgoingRayBuffer =
      some (.buf (.rays ((b + 1) &&& 1))) ∧
    argOf (ShadeSurfaceHits w h b) .hitSurface HitSurface.kOutgoingPixelIndicesBuffer =
      some (.buf (.pixelIndices ((b + 1) &&& 1))) ∧
    argOf (ShadeSurfaceHits w h b) .hitSurface HitSurface.kOutgoingRayCounterBuffer =
      some (.buf (.rayCounter ((b + 1) &&& 1))) ∧
    argOf (ClearOutgoingRayCounter b) .clearCounter 0 =
      some (.buf (.rayCounter ((b + 1) &&& 1))) ∧
    b &&& 1 ≠ (b + 1) &&& 1 := by
  refine ⟨rfl, rfl, rfl, rfl, rfl, rfl, rfl, rfl, rfl, rfl, rfl, ?_⟩
  rw [Nat.and_one_is_mod, Nat.and_one_is_mod]
  omega

/-- C5: `ShadeMissedRays(b)` first binds the incoming ray buffer,
pixel-index buffer and ray counter of parity `b & 1` into the miss kernel
and then dispatches it — its single dispatch — over exactly
`width * height` work-items (the dispatch is the last event, so every
binding precedes it). -/
theorem C5_miss_full_resolution_dispatch (w h b : Nat) :
    ShadeMissedRays w h b =
      [ .setKernelArg .miss Miss.kRayBuffer (.buf (.rays (b &&& 1))),
        .setKernelArg .miss Miss.kPixelIndicesBuffer (.buf (.pixelIndices (b &&& 1))),
        .setKernelArg .miss Miss.kRayCounterBuffer (.buf (.rayCounter (b &&& 1))),
        .execKernel .miss (w * h) ] ∧
    (ShadeMissedRays w h b).getLast? = some (.execKernel .miss (w * h)) ∧
    countExec .miss (ShadeMissedRays w h b) = 1 :=
  ⟨rfl, rfl, rfl⟩

/-- C3: within one bounce of `Integrate()`, the clear-counter dispatch of
`ClearOutgoingRayCounter(b)` sits strictly after the miss-shading dispatch
and strictly before the hit-shading dispatch (event positions 4, 6, 14 of
the bounce body), and running the bounce body up to but excluding the
hit-shading dispatch — from any device state and for any kernel effects —
leaves the outgoing counter of parity `(b + 1) & 1` equal to zero. -/
theorem C3_outgoing_counter_cleared_before_hit (w h b : Nat) (o : KernelOracle)
    (s : DeviceState) :
    (∃ im ic ihit,
      (bounceBody w h b).findIdx? (isExecOf .miss) = some im ∧
      (bounceBody w h b).findIdx? (isExecOf .clearCounter) = some ic ∧
      (bounceBody w h b).findIdx? (isExecOf .hitSurface) = some ihit ∧
      im < ic ∧ ic < ihit) ∧
    (ShadeSurfaceHits w h b).dropLast ++ [.execKernel .hitSurface (w * h)] =
      ShadeSurfaceHits w h b ∧
    (run o s (IntersectRays w h b ++ ShadeMissedRays w h b ++
        ClearOutgoingRayCounter b ++
        (ShadeSurfaceHits w h b).dropLast)).counterVal
      (.rayCounter ((b + 1) &&& 1)) = 0 := by
  refine ⟨⟨4, 6, 14, rfl, rfl, rfl, by omega, by omega⟩, rfl, ?_⟩
  simp [run, IntersectRays, ShadeMissedRays, ClearOutgoingRayCounter, ShadeSurfaceHits,
    applyEvent, setBinding, setCounter]

/-- C8: `ResolveRadiance()` is exactly the acquire / resolve-dispatch over
`width * height` work-items / blocking finish / release sequence, every
`Integrate()` trace ends with exactly that bracket, the prefix before it
contains no finish, acquire, release or resolve dispatch (so the surface
is written only inside the bracket), and the finish is the frame's only
host-blocking synchronization. -/
theorem C8_resolve_acquire_dispatch_finish_release (w h n : Nat) :
    ResolveRadiance w h =
      [.acquireGL, .execKernel .resolve (w * h), .finish, .releaseGL] ∧
    (Integrate w h n =
      (GenerateRays w h ++ bounceLoop w h 0 n ++ AdvanceSampleCount) ++
        [.acquireGL, .execKernel .resolve (w * h), .finish, .releaseGL]) ∧
    (GenerateRays w h ++ bounceLoop w h 0 n ++ AdvanceSampleCount).all
      (fun e => !(isFinishCall e || isAcquireCall e || isReleaseCall e ||
        isExecOf .resolve e)) = true ∧
    (Integrate w h n).countP isFinishCall = 1 := by
  have hall : ∀ m b, (bounceLoop w h b m).all
      (fun e => !(isFinishCall e || isAcquireCall e || isReleaseCall e ||
        isExecOf .resolve e)) = true := by
    intro m
    induction m with
    | zero => intro b; rfl
    | succ k ih =>
      intro b
      rw [bounceLoop_succ, List.all_append, ih (b + 1), Bool.and_true]
      rfl
  have hfin : ∀ m b, (bounceLoop w h b m).countP isFinishCall = 0 :=
    countP_bounceLoop w h isFinishCall 0 (fun b => rfl)
  refine ⟨rfl, ?_, ?_, ?_⟩
  · simp [Integrate, List.append_assoc, ResolveRadiance]
  · rw [List.all_append, List.all_append, hall n 0]
    rfl
  · unfold Integrate
    rw [List.countP_append, List.countP_append, List.countP_append, hfin n 0]
    rfl

/-- C6: with `maxBounces = 0`, `Integrate()` still dispatches ray
generation, the sample-counter increment and the resolve stage (each
exactly once), and the sample counter's device value grows by exactly one
(given the raygen kernel's counter output is bound to a ray counter, as
construction leaves it), while no intersection, miss-shading,
counter-clear or hit-shading dispatch occurs. -/
theorem C6_integrate_zero_bounces (w h : Nat) (o : KernelOracle) (s : DeviceState)
    (hraygen : s.bindings .raygen Raygen.kRayCounterBuffer = some (.buf (.rayCounter 0))) :
    Integrate w h 0 = GenerateRays w h ++ AdvanceSampleCount ++ ResolveRadiance w h ∧
    countExec .raygen (Integrate w h 0) = 1 ∧
    countExec .incrementCounter (Integrate w h 0) = 1 ∧
    countExec .resolve (Integrate w h 0) = 1 ∧
    countIntersect (Integrate w h 0) = 0 ∧
    countExec .miss (Integrate w h 0) = 0 ∧
    countExec .clearCounter (Integrate w h 0) = 0 ∧
    countExec .hitSurface (Integrate w h 0) = 0 ∧
    (run o s (Integrate w h 0)).counterVal .sampleCounter =
      s.counterVal .sampleCounter + 1 := by
  refine ⟨rfl, rfl, rfl, rfl, rfl, rfl, rfl, rfl, ?_⟩
  simp only [Integrate, GenerateRays, AdvanceSampleCount, ResolveRadiance, bounceLoop,
    run, List.append_assoc, List.cons_append, List.nil_append, List.foldl_cons,
    List.foldl_nil, applyEvent]
  rw [hraygen]
  simp [setBinding, setCounter]

/-- C9: `Reset()` is idempotent: running its trace twice from any device
state, for any kernel effects, yields the same state as running it once;
after either, the sample counter is zero and every radiance-accumulator
entry (every pixel index below `width * height`) is zero. -/
theorem C9_reset_idempotent (w h : Nat) (o : KernelOracle) (s : DeviceState)
    (i : Nat) (hi : i < w * h) :
    run o (run o s (ResetTrace w h)) (ResetTrace w h) = run o s (ResetTrace w h) ∧
    (run o s (ResetTrace w h)).counterVal .sampleCounter = 0 ∧
    (run o s (ResetTrace w h)).radiance i = 0 := by
  refine ⟨?_, ?_, ?_⟩
  · rw [run_ResetTrace o s w h, run_ResetTrace]
    apply deviceStateExt
    · exact setBinding_idem _ _ _ _
    · exact setCounter_idem _ _ _
    · funext j
      by_cases hj : j < w * h
      · simp [hj]
      · simp [hj]
  · rw [run_ResetTrace]
    simp [setCounter]
  · rw [run_ResetTrace]
    simp [hi]

end PathTrace

namespace PathTrace

/-- Whether an event rebinds one of the raygen kernel's output slots
(`kRayBuffer` and beyond, i.e. the ray, counter, pixel-index and
throughput outputs). -/
def isRaygenOutBind : Event → Bool
  | .setKernelArg .raygen sl _ => decide (Raygen.kRayBuffer ≤ sl)
  | _ => false

/-- An event that does not rebind a raygen output slot never matches a
lookup of such a slot. -/
lemma argMatch_raygen_none {slot : Nat} (h9 : Raygen.kRayBuffer ≤ slot) :
    ∀ e : Event, isRaygenOutBind e = false → argMatch .raygen slot e = none := by
  intro e he
  cases e with
  | setKernelArg q sl a =>
    cases q with
    | raygen =>
      simp only [isRaygenOutBind, decide_eq_false_iff_not] at he
      simp only [argMatch]
      rw [if_neg]
      rintro ⟨-, rfl⟩
      exact he h9
    | reset => simp [argMatch]
    | miss => simp [argMatch]
    | hitSurface => simp [argMatch]
    | clearCounter => simp [argMatch]
    | incrementCounter => simp [argMatch]
    | resolve => simp [argMatch]
  | execKernel q n => rfl
  | intersect a b c d => rfl
  | acquireGL => rfl
  | finish => rfl
  | releaseGL => rfl

/-- Appending a trace with no matching binding does not change a slot
lookup. -/
lemma argOf_append_none (t1 t2 : List Event) (k : KernelId) (slot : Nat)
    (h : ∀ e ∈ t2, argMatch k slot e = none) :
    argOf (t1 ++ t2) k slot = argOf t1 k slot := by
  unfold argOf
  rw [List.reverse_append, List.findSome?_append,
    List.findSome?_eq_none_iff.mpr fun x hx => h x (List.mem_reverse.mp hx)]
  rfl

/-- A pointwise-true predicate over the bodies holds over the whole bounce
loop. -/
lemma all_bounceLoop (w h : Nat) (p : Event → Bool)
    (hbody : ∀ b, (bounceBody w h b).all p = true) :
    ∀ n b, (bounceLoop w h b n).all p = true := by
  intro n
  induction n with
  | zero => intro b; rfl
  | succ m ih =>
    intro b
    rw [bounceLoop_succ, List.all_append, hbody b, ih (b + 1), Bool.and_self]

/-- No public method invocation ever rebinds a raygen output slot: the only
bindings into the raygen kernel after construction are `SetCameraData`'s
camera slots (2–8), below the output range. -/
lemma callsTrace_no_raygen_rebind (w h : Nat) :
    ∀ cs : List ApiCall, (callsTrace w h cs).all (fun e => !isRaygenOutBind e) = true := by
  intro cs
  induction cs with
  | nil => rfl
  | cons c rest ih =>
    rw [show callsTrace w h (c :: rest) = callTrace w h c ++ callsTrace w h rest from rfl,
      List.all_append, ih, Bool.and_true]
    cases c with
    | reset => rfl
    | setCameraData cam seed => rfl
    | setSceneData sc => rfl
    | advanceSampleCount => rfl
    | generateRays => rfl
    | intersectRays b => rfl
    | shadeMissedRays b => rfl
    | shadeSurfaceHits b => rfl
    | clearOutgoingRayCounter b => rfl
    | resolveRadiance => rfl
    | integrate nb =>
      show (Integrate w h nb).all _ = true
      unfold Integrate
      rw [List.all_append, List.all_append, List.all_append,
        all_bounceLoop w h (fun e => !isRaygenOutBind e) (fun b => rfl) nb 0]
      rfl

end PathTrace

namespace PathTrace

/-- C10: the raygen kernel's output bindings are fixed by the constructor
to the parity-0 triple and no public method ever rebinds them, so after
the constructor trace and any sequence of method invocations the raygen
kernel still writes into `rays[0]`, `ray_counter[0]`, `pixel_indices[0]`
— exactly the triple bounce 0 (incoming parity `0 & 1 = 0`) reads in
intersection, miss-shading and hit-shading. -/
theorem C10_raygen_output_fixed_parity0 (w h : Nat) (cs : List ApiCall) :
    (callsTrace w h cs).all (fun e => !isRaygenOutBind e) = true ∧
    argOf (ctorTrace w h ++ callsTrace w h cs) .raygen Raygen.kRayBuffer =
      some (.buf (.rays 0)) ∧
    argOf (ctorTrace w h ++ callsTrace w h cs) .raygen Raygen.kRayCounterBuffer =
      some (.buf (.rayCounter 0)) ∧
    argOf (ctorTrace w h ++ callsTrace w h cs) .raygen Raygen.kPixelIndicesBuffer =
      some (.buf (.pixelIndices 0)) ∧
    IntersectRays w h 0 = [.intersect (.rays 0) (.rayCounter 0) (w * h) .hits] ∧
    argOf (ShadeMissedRays w h 0) .miss Miss.kRayBuffer = some (.buf (.rays 0)) ∧
    argOf (ShadeSurfaceHits w h 0) .hitSurface HitSurface.kIncomingRayBuffer =
      some (.buf (.rays 0)) := by
  have hnone : ∀ slot, Raygen.kRayBuffer ≤ slot →
      ∀ e ∈ callsTrace w h cs, argMatch .raygen slot e = none := by
    intro slot hs e he
    apply argMatch_raygen_none hs
    have hall := callsTrace_no_raygen_rebind w h cs
    rw [List.all_eq_true] at hall
    have h2 := hall e he
    simpa using h2
  refine ⟨callsTrace_no_raygen_rebind w h cs, ?_, ?_, ?_, rfl, rfl, rfl⟩
  · rw [argOf_append_none _ _ _ _ (hnone _ (by decide))]
    rfl
  · rw [argOf_append_none _ _ _ _ (hnone _ (by decide))]
    rfl
  · rw [argOf_append_none _ _ _ _ (hnone _ (by decide))]
    rfl

/-- The dot product of a cross product with its first factor vanishes. -/
lemma dot_cross_left (a b : Vec3) : dot (cross a b) a = 0 := by
  unfold dot cross
  ring

/-- The dot product of a cross product with its second factor vanishes. -/
lemma dot_cross_right (a b : Vec3) : dot (cross a b) b = 0 := by
  unfold dot cross
  ring

/-- Dot product after scalar multiplication. -/
lemma dot_smul_left (c : ℝ) (v u : Vec3) : dot (smul c v) u = c * dot v u := by
  unfold dot smul
  ring

/-- Whether an event is an argument binding (as opposed to a dispatch, an
intersection call or an interop operation). -/
def isSetArg : Event → Bool
  | .setKernelArg .. => true
  | _ => false

/-- C7: `SetCameraData` computes `right = Normalize(Cross(front, upIn))`
and the final `up = Cross(right, front)` — an orthogonal basis regardless
of whether the input up is orthogonal to front — and its trace is exactly
the seven raygen argument bindings (position, front, recomputed up, frame
count, freshly drawn seed, aperture, focus distance): it contains only
bindings, dispatches nothing, and leaves every counter and radiance value
of any device state unchanged. -/
theorem C7_set_camera_data_basis (c : CameraInput) (seed : Nat) (o : KernelOracle)
    (s : DeviceState) :
    SetCameraData c seed =
      [ .setKernelArg .raygen Raygen.kCameraPos (.vec3 c.origin),
        .setKernelArg .raygen Raygen.kCameraFront (.vec3 c.front),
        .setKernelArg .raygen Raygen.kCameraUp
          (.vec3 (cross (normalize (cross c.front c.up)) c.front)),
        .setKernelArg .raygen Raygen.kFrameCount (.u32 c.frameCount),
        .setKernelArg .raygen Raygen.kFrameSeed (.u32 seed),
        .setKernelArg .raygen Raygen.kAperture (.f32 c.aperture),
        .setKernelArg .raygen Raygen.kFocusDistance (.f32 c.focusDistance) ] ∧
    (SetCameraData c seed).all isSetArg = true ∧
    (run o s (SetCameraData c seed)).counterVal = s.counterVal ∧
    (run o s (SetCameraData c seed)).radiance = s.radiance ∧
    dot (normalize (cross c.front c.up)) c.front = 0 ∧
    dot (cross (normalize (cross c.front c.up)) c.front) c.front = 0 ∧
    dot (cross (normalize (cross c.front c.up)) c.front)
      (normalize (cross c.front c.up)) = 0 := by
  refine ⟨rfl, rfl, ?_, ?_, ?_, ?_, ?_⟩
  · simp [run, SetCameraData, applyEvent]
  · simp [run, SetCameraData, applyEvent]
  · rw [normalize, dot_smul_left, dot_cross_left, mul_zero]
  · exact dot_cross_right _ _
  · exact dot_cross_left _ _

end PathTrace

namespace PathTrace

/-- Status map where only the radiance-buffer creation fails, with
`CL_OUT_OF_RESOURCES = -5`. -/
def stRadianceFails : Resource → Int :=
  fun r => if r = .radianceBuffer then -5 else CL_SUCCESS

/-- Status map where only the throughputs-buffer creation fails. -/
def stThroughputsFails : Resource → Int :=
  fun r => if r = .throughputsBuffer then -5 else CL_SUCCESS

/-- C4 is refuted by the code: when the radiance-buffer creation itself
fails (status −5) but the eight later creations before the first check
succeed, the shared `status` variable has been overwritten and the
constructor completes as if nothing failed — no abort, no error; and when
the throughputs-buffer creation fails, the thrown error names the
radiance buffer, not the failing resource. -/
theorem C4_creation_failure_swallowed :
    ctorCreateResources stRadianceFails = .ok () ∧
    ctorCreateResources stThroughputsFails =
      .error ⟨"Failed to create radiance buffer", -5⟩ := by
  constructor
  · rfl
  · rfl

/-- An oracle assigning the zero contribution and zero survivors; used
only to instantiate hypotheses at a concrete input. -/
noncomputable def oracle0 : KernelOracle :=
  { missAdd := fun _ => 0, hitAdd := fun _ => 0, hitSurvivors := 0 }

/-- A device state with the raygen counter output bound as construction
leaves it; used only to instantiate hypotheses at a concrete input. -/
noncomputable def state0 : DeviceState :=
  { bindings := setBinding (fun _ _ => none) .raygen Raygen.kRayCounterBuffer
      (.buf (.rayCounter 0)),
    counterVal := fun _ => 0,
    radiance := fun _ => 0 }

/-- Witness for C6 at width 2, height 2 and a concrete bound state. -/
theorem C6_integrate_zero_bounces_witness :
    (run oracle0 state0 (Integrate 2 2 0)).counterVal .sampleCounter =
      state0.counterVal .sampleCounter + 1 :=
  (C6_integrate_zero_bounces 2 2 oracle0 state0 rfl).2.2.2.2.2.2.2.2

/-- Witness for C9 at width 2, height 2, pixel 1 and a concrete state. -/
theorem C9_reset_idempotent_witness :
    run oracle0 (run oracle0 state0 (ResetTrace 2 2)) (ResetTrace 2 2) =
      run oracle0 state0 (ResetTrace 2 2) ∧
    (run oracle0 state0 (ResetTrace 2 2)).counterVal .sampleCounter = 0 ∧
    (run oracle0 state0 (ResetTrace 2 2)).radiance 1 = 0 :=
  C9_reset_idempotent 2 2 oracle0 state0 1 (by decide)

end PathTrace
